import Mathlib

/-!
Verification development for the `generateAstralChart` Firebase function
(`functions/index.js`).  The JavaScript numbers are modelled as rationals
(`ℚ`); the request pipeline is modelled as a pure function from the request
body and the responses of the external collaborators (geocoder, timezone
service, Swiss Ephemeris library, narrative generator) to the HTTP response
together with an observable trace (which collaborators were called, which
timestamp / offset / hour arguments were passed to them).
-/

/-- JavaScript `Math.trunc`-style truncation used by the `%` operator:
rounds towards zero. -/
def jsTrunc (q : ℚ) : ℤ := if q < 0 then ⌈q⌉ else ⌊q⌋

/-- JavaScript remainder `a % b` (sign of the dividend, truncated division). -/
def jsMod (a b : ℚ) : ℚ := a - b * jsTrunc (a / b)

/-- `Number.prototype.toFixed(2)` rounding, as a rational: round half away
from zero to two decimals (for the nonnegative values arising here this is
round half up, `⌊q·100 + 1/2⌋ / 100`). -/
def round2 (q : ℚ) : ℚ := ((round (q * 100) : ℤ) : ℚ) / 100

/-- The fixed sign table, `signNames` in the source (line 169). -/
def signNames : List String :=
  ["Aries", "Tauro", "Géminis", "Cáncer", "Leo", "Virgo", "Libra",
   "Escorpio", "Sagitario", "Capricornio", "Acuario", "Piscis"]

/-- JavaScript array indexing `arr[i]` with a (possibly negative) integer
index: out-of-range access yields `undefined`, modelled as `none`. -/
def jsIndexGet (l : List String) (i : ℤ) : Option String :=
  if 0 ≤ i then l.get? i.toNat else none

/-- `Math.floor(longitude / 30)`, the sign index (source lines 174, 189,
195, 197, 203, 208). -/
def signIndexOf (lon : ℚ) : ℤ := ⌊lon / 30⌋

/-- `signNames[Math.floor(longitude / 30)]`: the derived sign. -/
def signOf (lon : ℚ) : Option String := jsIndexGet signNames (signIndexOf lon)

/-- `longitude % 30`, the degree within the sign before `toFixed(2)`
(source lines 176, 191). -/
def degreeRaw (lon : ℚ) : ℚ := jsMod lon 30

/-- One record of `planetData` / `housesData`:
`{ sign, degree, longitude }` (source lines 177, 192).  The `degree`
field stores `(longitude % 30).toFixed(2)` — i.e. the two-decimal rounded
value (a string in JS; modelled by its numeric value). -/
structure Placement where
  sign : Option String
  degree : ℚ
  longitude : ℚ

/-- Builds one `planetData[name]` / `housesData[casa]` record
(source lines 173–177 and 188–192, identical logic). -/
def mkPlacement (lon : ℚ) : Placement :=
  { sign := signOf lon, degree := round2 (degreeRaw lon), longitude := lon }

/-! ### House assignment

The source calls `swisseph.swe_house_pos(houseCusps, latitude, p.longitude)`
and takes `Math.floor` of the result (lines 216–217).  `swe_house_pos` is
provided by the external `swisseph-js` collaborator, whose contract the
specification gives as: find the unique house `h` whose half-open circular
interval `[cusp[h], cusp[h+1])` (in the direction of increasing longitude,
wrapping from house 12 back to house 1) contains the body's longitude. -/

/-- Membership of `x` in the half-open circular arc from `a` (inclusive)
to `b` (exclusive) in the direction of increasing longitude; when `b ≤ a`
the arc wraps through 0°/360°. -/
def inArcB (a b x : ℚ) : Bool :=
  if a < b then decide (a ≤ x) && decide (x < b)
  else decide (a ≤ x) || decide (x < b)

/-- The cusp index that follows house `h`, wrapping from 12 back to 1. -/
def nextHouse (h : ℕ) : ℕ := if h = 12 then 1 else h + 1

/-- `x` lies in house `h` with respect to the cusp array `c`. -/
def inHouse (c : ℕ → ℚ) (h : ℕ) (x : ℚ) : Prop :=
  inArcB (c h) (c (nextHouse h)) x = true

instance (c : ℕ → ℚ) (h : ℕ) (x : ℚ) : Decidable (inHouse c h x) := by
  unfold inHouse; infer_instance

/-- The circular interval search over houses 1..12. -/
def findHouse (c : ℕ → ℚ) (x : ℚ) : Option ℕ :=
  ((List.range 12).map (· + 1)).find? (fun h => inArcB (c h) (c (nextHouse h)) x)

/-- Modelled from the spec: `swe_house_pos` of the external `swisseph-js`
library (its implementation is not part of this repository).  The spec
describes its contract as returning a house position whose integer part is
the unique house `h` such that the longitude falls in
`[cusp[h], cusp[h+1])` circularly; the fractional part (position within
the house) is not specified and is modelled as 0. -/
def swe_house_pos (c : ℕ → ℚ) (lat : ℚ) (x : ℚ) : ℚ :=
  (((findHouse c x).getD 0 : ℕ) : ℚ)

/-- House index obtained by starting at house `k` and walking `i` houses in
zodiacal order (indices 1..12).  Used to state that a cusp array is
circularly ordered: a well-formed Placidus cusp set is strictly increasing
along `rot k 0, rot k 1, …, rot k 11` for some `k`. -/
def rot (k i : ℕ) : ℕ := (k - 1 + i) % 12 + 1

/-! ### Calendar / local time -/

/-- The parsed components of `new Date(`birthDate`T`birthTime`:00`)`, i.e.
what `getFullYear/getMonth+1/getDate/getHours/getMinutes` return for it
(the string has no UTC designator, so it denotes local time of the
environment the code runs in). -/
structure LocalDateTime where
  year : ℤ
  month : ℤ
  day : ℤ
  hour : ℤ
  minute : ℤ
deriving DecidableEq

def digitVal (c : Char) : ℕ := c.toNat - '0'.toNat

/-- Parses `"YYYY-MM-DD"` (the ISO date part accepted by the engine's
`Date` parser for the composed string). -/
def parseDatePart (s : String) : Option (ℤ × ℤ × ℤ) :=
  match s.data with
  | [y1, y2, y3, y4, '-', m1, m2, '-', d1, d2] =>
    if y1.isDigit && y2.isDigit && y3.isDigit && y4.isDigit &&
       m1.isDigit && m2.isDigit && d1.isDigit && d2.isDigit then
      some ((digitVal y1 * 1000 + digitVal y2 * 100 + digitVal y3 * 10 + digitVal y4 : ℕ),
            ((digitVal m1 * 10 + digitVal m2 : ℕ) : ℤ),
            ((digitVal d1 * 10 + digitVal d2 : ℕ) : ℤ))
    else none
  | _ => none

/-- Parses `"HH:MM"` (the time part; the source appends `":00"` seconds). -/
def parseTimePart (s : String) : Option (ℤ × ℤ) :=
  match s.data with
  | [h1, h2, ':', n1, n2] =>
    if h1.isDigit && h2.isDigit && n1.isDigit && n2.isDigit then
      some (((digitVal h1 * 10 + digitVal h2 : ℕ) : ℤ),
            ((digitVal n1 * 10 + digitVal n2 : ℕ) : ℤ))
    else none
  | _ => none

def isLeap (y : ℤ) : Bool := (y % 4 == 0 && y % 100 != 0) || y % 400 == 0

def daysInMonth (y m : ℤ) : ℤ :=
  if m = 2 then (if isLeap y then 29 else 28)
  else if m = 4 ∨ m = 6 ∨ m = 9 ∨ m = 11 then 30 else 31

/-- The civil day after `(y, m, d)`. -/
def nextDay (y m d : ℤ) : ℤ × ℤ × ℤ :=
  if d < daysInMonth y m then (y, m, d + 1)
  else if m < 12 then (y, m + 1, 1) else (y + 1, 1, 1)

/-- Models `new Date(`${birthDate}T${birthTime}:00`)` (source line 110) and
the subsequent `isNaN(localDate.getTime())` validity check (line 112): the
engine's ISO parser accepts the string only when every component denotes a
real calendar instant (a `Feb 30` day or an out-of-range time component
yields an invalid date); `T24:00` is the one legal overflow and denotes
midnight of the next day.  Returns the civil fields the `get*` accessors
subsequently report. -/
def parseLocalDT (bd bt : String) : Option LocalDateTime :=
  match parseDatePart bd, parseTimePart bt with
  | some (y, m, d), some (hh, mm) =>
    if 1 ≤ m ∧ m ≤ 12 ∧ 1 ≤ d ∧ d ≤ daysInMonth y m then
      if hh ≤ 23 ∧ mm ≤ 59 then some ⟨y, m, d, hh, mm⟩
      else if hh = 24 ∧ mm = 0 then
        match nextDay y m d with
        | (y2, m2, d2) => some ⟨y2, m2, d2, 0, 0⟩
      else none
    else none
  | _, _ => none

/-- Days from the Unix epoch to civil date `(y, m, d)` (proleptic
Gregorian; Howard Hinnant's `days_from_civil`, with floor division — the C
original uses truncating division on operands arranged to be nonnegative,
which coincides with floor division there). -/
def daysFromCivil (y m d : ℤ) : ℤ :=
  let y2 := if m ≤ 2 then y - 1 else y
  let era := Int.fdiv y2 400
  let yoe := y2 - era * 400
  let doy := Int.fdiv (153 * (m + (if 2 < m then -3 else 9)) + 2) 5 + d - 1
  let doe := yoe * 365 + Int.fdiv yoe 4 - Int.fdiv yoe 100 + doy
  era * 146097 + doe - 719468

/-- `Math.floor(localDate.getTime() / 1000)` (source line 117): the epoch
seconds of the parsed local civil datetime.  The `Date` string has no UTC
designator, so the engine interprets it in the timezone of the runtime
environment; `serverOffsetSeconds` is that environment's UTC offset (in
seconds east of UTC) at the given local time. -/
def unixSeconds (dt : LocalDateTime) (serverOffsetSeconds : ℤ) : ℤ :=
  daysFromCivil dt.year dt.month dt.day * 86400
    + dt.hour * 3600 + dt.minute * 60 - serverOffsetSeconds

/-- `timezoneData.dstOffset + timezoneData.rawOffset` (source line 132). -/
def totalOffsetSeconds (dstOffset rawOffset : ℤ) : ℤ := dstOffset + rawOffset

/-- The hour argument passed to `swe_julday`:
`localDate.getHours() + rawOffsetSeconds / 3600` (source line 151).
`getHours()` yields only the integer hour of the birth time; the minutes
are not part of this expression. -/
def juldayHour (dt : LocalDateTime) (offsetSeconds : ℤ) : ℚ :=
  (dt.hour : ℚ) + (offsetSeconds : ℚ) / 3600

/-! ### Ephemeris collaborator and chart computation -/

/-- The result of `swisseph.swe_houses(julianDay, latitude, longitude, 'P')`
(source line 181): the cusp array (indices 1..12 used), the ascendant and
the midheaven. -/
structure HousesResult where
  house : ℕ → ℚ
  ascendant : ℚ
  mc : ℚ

/-- The `swisseph-js` collaborator, treated as a pure oracle: `swe_julday`,
`swe_calc_ut` (of which the code reads `pos[0]`, the ecliptic longitude)
and `swe_houses`. -/
structure Ephemeris where
  julday : ℤ → ℤ → ℤ → ℚ → ℚ
  calcLon : ℚ → ℕ → ℚ
  housesOf : ℚ → ℚ → ℚ → HousesResult

/-- The planet constants `SE_SUN .. SE_PLUTO` in the order of the `planets`
array (source lines 156–160); the Swiss Ephemeris values are 0..9. -/
def planetIds : List ℕ := [0, 1, 2, 3, 4, 5, 6, 7, 8, 9]

/-- The `planetNames` lookup (source lines 163–168). -/
def planetName : ℕ → String
  | 0 => "Sol"
  | 1 => "Luna"
  | 2 => "Mercurio"
  | 3 => "Venus"
  | 4 => "Marte"
  | 5 => "Júpiter"
  | 6 => "Saturno"
  | 7 => "Urano"
  | 8 => "Neptuno"
  | 9 => "Plutón"
  | _ => ""

/-- The chart data computed in source lines 147–218, together with the
observable inputs of the house-position calls. -/
structure Chart where
  julianDay : ℚ
  planets : List (String × Placement)
  cuspArray : ℕ → ℚ
  houses : List Placement
  ascendantSign : Option String
  mcSign : Option String
  sunSign : Option String
  moonSign : Option String
  planetHouses : List (String × ℤ)

def defaultPlacement : Placement := { sign := none, degree := 0, longitude := 0 }

/-- Source lines 147–218: Julian day, planet positions (`planetData`),
house cusps (`housesData`), ascendant / midheaven / sun / moon signs and
the house of each planet (`Math.floor(swe_house_pos(houseCusps, latitude,
p.longitude))`). -/
def computeChart (e : Ephemeris) (dt : LocalDateTime) (offsetSeconds : ℤ)
    (lat lon : ℚ) : Chart :=
  let jd := e.julday dt.year dt.month dt.day (juldayHour dt offsetSeconds)
  let pdata := planetIds.map (fun p => (planetName p, mkPlacement (e.calcLon jd p)))
  let hres := e.housesOf jd lat lon
  let hcusps := hres.house
  let hdata := (List.range 12).map (fun i => mkPlacement (hcusps (i + 1)))
  let sunLon := ((pdata.lookup "Sol").getD defaultPlacement).longitude
  let moonLon := ((pdata.lookup "Luna").getD defaultPlacement).longitude
  { julianDay := jd
    planets := pdata
    cuspArray := hcusps
    houses := hdata
    ascendantSign := signOf hres.ascendant
    mcSign := signOf hres.mc
    sunSign := signOf sunLon
    moonSign := signOf moonLon
    planetHouses := pdata.map
      (fun np => (np.1, ⌊swe_house_pos hcusps lat np.2.longitude⌋)) }

/-! ### Prompt assembly -/

/-- JS string interpolation of a possibly-`undefined` value. -/
def showSign : Option String → String
  | some s => s
  | none => "undefined"

/-- Decimal rendering of the (already two-decimal) degree value, as
`toFixed(2)` prints it. -/
def toFixed2 (q : ℚ) : String :=
  let c : ℤ := round (q * 100)
  let a := c.natAbs
  (if c < 0 then "-" else "") ++ toString (a / 100) ++ "." ++
    (if a % 100 < 10 then "0" else "") ++ toString (a % 100)

/-- Rendering of a JS number for interpolation (latitude, longitude,
offset hours).  Exact JS double-to-string formatting is a floating-point
concern outside this model; no verified property depends on this
rendering. -/
def ratStr (q : ℚ) : String :=
  if q.den = 1 then toString q.num
  else toString q.num ++ "/" ++ toString q.den

/-- One entry of `planetsPrompt` (source lines 212–218):
`` `${planetName} en ${p.sign} a ${p.degree}° en Casa ${Math.floor(housePos)}` ``. -/
def planetLine (hcusps : ℕ → ℚ) (lat : ℚ) (np : String × Placement) : String :=
  np.1 ++ " en " ++ showSign np.2.sign ++ " a " ++ toFixed2 np.2.degree ++
    "° en Casa " ++ toString ⌊swe_house_pos hcusps lat np.2.longitude⌋

/-- One entry of `housesCuspsPrompt` (source lines 220–223):
`` `${houseName} en ${h.sign} a ${h.degree}°` ``. -/
def houseLine (i : ℕ) (h : Placement) : String :=
  "Casa " ++ toString (i + 1) ++ " en " ++ showSign h.sign ++ " a " ++
    toFixed2 h.degree ++ "°"

/-- The interpolated fields of `finalAstroData` as they appear in the
prompt template (source lines 228–245), already rendered to strings. -/
structure FinalData where
  birthDate : String
  birthTime : String
  birthPlace : String
  userSex : String
  timezoneId : String
  rawOffsetHoursStr : String
  latitudeStr : String
  longitudeStr : String
  sunSign : String
  moonSign : String
  ascendant : String
  mc : String
  planetsPositions : String
  housesCusps : String
  keyAspects : String
  language : String

/-- Builds `finalAstroData` (source lines 228–245) from the request fields,
the resolved location/timezone facts and the computed chart. -/
def mkFinalData (bd bt bp sx lg tzId : String) (offsetSeconds : ℤ)
    (lat lon : ℚ) (c : Chart) : FinalData :=
  { birthDate := bd
    birthTime := bt
    birthPlace := bp
    userSex := sx
    timezoneId := tzId
    rawOffsetHoursStr := ratStr ((offsetSeconds : ℚ) / 3600)
    latitudeStr := ratStr lat
    longitudeStr := ratStr lon
    sunSign := showSign c.sunSign
    moonSign := showSign c.moonSign
    ascendant := showSign c.ascendantSign
    mc := showSign c.mcSign
    planetsPositions := String.intercalate ", "
      (c.planets.map (planetLine c.cuspArray lat))
    housesCusps := String.intercalate ", "
      ((List.range 12).zip c.houses |>.map (fun ih => houseLine ih.1 ih.2))
    keyAspects := "Aspectos derivados de las posiciones planetarias (interpretación de Gemini)"
    language := lg }

/-- The tone directive inside the prompt (source line 268). -/
def toneLine : String := "El tono debe ser directo (\"tú\")."

/-- The exclusion list inside the prompt (source line 270). -/
def exclusionLine : String :=
  "¡No incluyas ninguna sección o mención a Eneagrama, Chakras, pareja ideal o imágenes!"

/-- The practical-techniques instruction (source line 301). -/
def practicalLine : String :=
  "Proporciona herramientas y técnicas prácticas para las secciones 27 y 28."

/-- The 28 section titles, in template order (source lines 272–299). -/
def sectionTitles : List String :=
  ["Los Componentes Fundamentales de tu Carta Astral",
   "La Interpretación de tu Carta Astral: Un Viaje Personal",
   "Beneficios de Conocer tu Carta Astral: Tu Poder Interior",
   "Análisis Completo, Profundo y Detallado de tu Mapa Cósmico",
   "Síntesis General de tu Perfil Astrológico: Tu Esencia Única",
   "La Dinámica de la Armonía: Integrando tus Luces",
   "Un Enfoque Positivo para la Pasión y la Vida: Tu Energía Radiante",
   "La Sexualidad: Un Viaje de Conexión Profunda y Placer",
   "La Relación Contigo Mismo",
   "El Aspecto Social: Tu Brillo en la Conexión Humana",
   "El Aspecto Laboral: Tu Propósito en Acción",
   "El Aspecto Artístico: La Danza de tu Creatividad",
   "El Ego: Tu Guardián y Maestro Interior",
   "El Verdadero Yo: La Voz de tu Alma",
   "Sanar la Herida (Quirón) Abrazando tu Poder de Transformación",
   "El Viaje del Alma: Tu Sendero Evolutivo",
   "El Viaje del Alma por Edad y Años en el Mundo: Tu Crecimiento Constante",
   "El Propósito de Vida y del Mundo: Tu Huella Cósmica",
   "El Amor en la Carta Astral: Un Universo de Conexiones",
   "La Salud: Tu Templo Sagrado y Vibrante",
   "El Aspecto Deportivo y el Ejercicio: La Alegría del Movimiento",
   "El Dinero, Finanzas y Emprendimiento: Fluyendo con la Abundancia",
   "Espiritualidad y Conexión Divina: Tu Puente con lo Infinito",
   "Proyección Futura y Conexión Angelical: Tu Destino Luminoso",
   "Lujos Materiales, Turismo, Hogar y Estilo Personal: Celebrando la Vida",
   "Vidas Pasadas: Los Ecos de tu Sabiduría Ancestral",
   "Técnicas para Sanar la Herida: Herramientas para tu Florecimiento",
   "Trascender la Furia del Ego a la Paz del Amor: Un Camino de Maestría"]

/-- Prefixes each title with its 1-based number (`"1. …"`, `"2. …"`, …). -/
def numberedLines : ℕ → List String → List String
  | _, [] => []
  | n, t :: ts => (toString n ++ ". " ++ t) :: numberedLines (n + 1) ts

/-- The contiguous numbered 28-section enumeration block of the template. -/
def sectionsBlock : String := String.intercalate "\n" (numberedLines 1 sectionTitles)

/-- The 28 lines of the enumeration block of the template, verbatim
(source lines 272–299, one list entry per template line; the template
joins consecutive lines with a newline). -/
def sectionLines : List String :=
  ["1. Los Componentes Fundamentales de tu Carta Astral",
   "2. La Interpretación de tu Carta Astral: Un Viaje Personal",
   "3. Beneficios de Conocer tu Carta Astral: Tu Poder Interior",
   "4. Análisis Completo, Profundo y Detallado de tu Mapa Cósmico",
   "5. Síntesis General de tu Perfil Astrológico: Tu Esencia Única",
   "6. La Dinámica de la Armonía: Integrando tus Luces",
   "7. Un Enfoque Positivo para la Pasión y la Vida: Tu Energía Radiante",
   "8. La Sexualidad: Un Viaje de Conexión Profunda y Placer",
   "9. La Relación Contigo Mismo",
   "10. El Aspecto Social: Tu Brillo en la Conexión Humana",
   "11. El Aspecto Laboral: Tu Propósito en Acción",
   "12. El Aspecto Artístico: La Danza de tu Creatividad",
   "13. El Ego: Tu Guardián y Maestro Interior",
   "14. El Verdadero Yo: La Voz de tu Alma",
   "15. Sanar la Herida (Quirón) Abrazando tu Poder de Transformación",
   "16. El Viaje del Alma: Tu Sendero Evolutivo",
   "17. El Viaje del Alma por Edad y Años en el Mundo: Tu Crecimiento Constante",
   "18. El Propósito de Vida y del Mundo: Tu Huella Cósmica",
   "19. El Amor en la Carta Astral: Un Universo de Conexiones",
   "20. La Salud: Tu Templo Sagrado y Vibrante",
   "21. El Aspecto Deportivo y el Ejercicio: La Alegría del Movimiento",
   "22. El Dinero, Finanzas y Emprendimiento: Fluyendo con la Abundancia",
   "23. Espiritualidad y Conexión Divina: Tu Puente con lo Infinito",
   "24. Proyección Futura y Conexión Angelical: Tu Destino Luminoso",
   "25. Lujos Materiales, Turismo, Hogar y Estilo Personal: Celebrando la Vida",
   "26. Vidas Pasadas: Los Ecos de tu Sabiduría Ancestral",
   "27. Técnicas para Sanar la Herida: Herramientas para tu Florecimiento",
   "28. Trascender la Furia del Ego a la Paz del Amor: Un Camino de Maestría"]

/-- The contiguous 28-line enumeration block of the template: its lines
joined by newlines. -/
def sectionsText : String := String.intercalate "\n" sectionLines

/-- The prompt template (source lines 250–303), transcribed verbatim; the
static text is split into adjacent literals at the boundaries of the
sentences and blocks named above (concatenation of adjacent string
literals is the identity on the template text). -/
def textPrompt (d : FinalData) : String :=
  "Genera una interpretación completa de la carta astral basada en los siguientes datos de nacimiento:\nFecha de Nacimiento: "
  ++ d.birthDate
  ++ "\nHora de Nacimiento: " ++ d.birthTime ++ " (Hora Local)\nLugar de Nacimiento: "
  ++ d.birthPlace
  ++ "\nSexo del Usuario: " ++ d.userSex
  ++ "\nLatitud: " ++ d.latitudeStr
  ++ "\nLongitud: " ++ d.longitudeStr
  ++ "\nZona Horaria Identificada: " ++ d.timezoneId
  ++ " (Offset GMT: " ++ d.rawOffsetHoursStr ++ " horas)"
  ++ "\n\nY los siguientes datos astrológicos precisos calculados:\nSigno Solar: "
  ++ d.sunSign
  ++ "\nSigno Lunar: " ++ d.moonSign
  ++ "\nAscendente: " ++ d.ascendant
  ++ "\nMedio Cielo: " ++ d.mc
  ++ "\nPosiciones de Planetas: " ++ d.planetsPositions
  ++ ".\nCúspides de Casas: " ++ d.housesCusps
  ++ ".\nAspectos Clave: " ++ d.keyAspects
  ++ "\n\nLa interpretación debe ser altamente profesional, profunda, narrativa y psicológicamente atractiva. Utiliza principios de Neuro-Linguistic Programming (PNL) para inspirar, captar la atención y motivar el crecimiento personal, fomentando una sensación agradable, mental y psicológicamente enriquecedora para el lector. "
  ++ toneLine
  ++ " La interpretación debe ser sensible al género del usuario.\n\nLa interpretación debe estructurarse con las siguientes 28 secciones exactas y en este orden. "
  ++ exclusionLine
  ++ "\n\n"
  ++ sectionsText
  ++ "\n\n"
  ++ practicalLine
  ++ "\n\nResponde enteramente en "
  ++ (if d.language = "es" then "Spanish" else "English")
  ++ ". El formato final debe ser Markdown."

/-! ### The request handler -/

/-- The inbound JSON body fields (source line 62); `none` models an absent
field. -/
structure RequestBody where
  birthDate : Option String
  birthTime : Option String
  birthPlace : Option String
  userSex : Option String
  language : Option String

/-- The external calls the handler can make, in order. -/
inductive Call
  | geocode
  | timezone
  | ephemeris
  | narrative
deriving DecidableEq

/-- The HTTP response plus the observable trace of the run: which
collaborators were reached, the prompt and narrative text produced, the
`timestamp` query parameter sent to the timezone API, the total offset
`dstOffset + rawOffset` adopted, and the hour argument given to
`swe_julday`. -/
structure Response where
  status : ℕ
  calls : List Call
  promptOut : Option String
  chartText : Option String
  tzTimestamp : Option ℤ
  offsetUsed : Option ℤ
  hourArg : Option ℚ

def errRes (s : ℕ) (cs : List Call) : Response :=
  { status := s, calls := cs, promptOut := none, chartText := none,
    tzTimestamp := none, offsetUsed := none, hourArg := none }

/-- The collaborator behaviour for one request: the geocoder outcome
(`none` = network/HTTP failure → 500; `some none` = empty result list →
404; `some (some (lat, lon))` = first match), the timezone API outcome
(`none` = network/HTTP failure; `some none` = status ≠ OK; `some (some
(zoneId, dstOffset, rawOffset))`), the ephemeris oracle, the narrative
generator, and the UTC offset of the runtime environment's own timezone
(which the engine's `Date` parser applies to the offset-less local
datetime string). -/
structure World where
  geo : Option (Option (ℚ × ℚ))
  tz : Option (Option (String × ℤ × ℤ))
  eph : Ephemeris
  gemini : String → String
  serverOffsetSeconds : ℤ

/-- Source lines 70–317: the pipeline after field validation has passed. -/
def handleValidated (bd bt bp sx lg : String) (w : World) : Response :=
  match w.geo with
  | none => errRes 500 [Call.geocode]
  | some none => errRes 404 [Call.geocode]
  | some (some (lat, lon)) =>
    match parseLocalDT bd bt with
    | none => errRes 400 [Call.geocode]
    | some dt =>
      let ts := unixSeconds dt w.serverOffsetSeconds
      match w.tz with
      | none => { errRes 500 [Call.geocode, Call.timezone] with tzTimestamp := some ts }
      | some none => { errRes 404 [Call.geocode, Call.timezone] with tzTimestamp := some ts }
      | some (some (tzId, dstOffset, rawOffset)) =>
        let offSec := totalOffsetSeconds dstOffset rawOffset
        let chart := computeChart w.eph dt offSec lat lon
        let fd := mkFinalData bd bt bp sx lg tzId offSec lat lon chart
        let prompt := textPrompt fd
        { status := 200
          calls := [Call.geocode, Call.timezone, Call.ephemeris, Call.narrative]
          promptOut := some prompt
          chartText := some (w.gemini prompt)
          tzTimestamp := some ts
          offsetUsed := some offSec
          hourArg := some (juldayHour dt offSec) }

/-- The full handler (source lines 29–324): CORS preflight, method check,
configuration checks, field validation (`!birthDate || !birthTime || …`,
line 65 — absent fields and empty strings are falsy), then the pipeline. -/
def handle (method : String) (geminiConfig mapsConfig : Bool)
    (body : RequestBody) (w : World) : Response :=
  if method = "OPTIONS" then errRes 200 []
  else if method ≠ "POST" then errRes 405 []
  else if ¬geminiConfig then errRes 500 []
  else if ¬mapsConfig then errRes 500 []
  else
    match body.birthDate, body.birthTime, body.birthPlace, body.userSex, body.language with
    | some bd, some bt, some bp, some sx, some lg =>
      if bd = "" ∨ bt = "" ∨ bp = "" ∨ sx = "" ∨ lg = "" then errRes 400 []
      else handleValidated bd bt bp sx lg w
    | _, _, _, _, _ => errRes 400 []

/-- The prompt up to (and including) `"Responde enteramente en "`:
everything before the interpolated language word. -/
def promptUpToLanguage (d : FinalData) : String :=
  "Genera una interpretación completa de la carta astral basada en los siguientes datos de nacimiento:\nFecha de Nacimiento: "
  ++ d.birthDate
  ++ "\nHora de Nacimiento: " ++ d.birthTime ++ " (Hora Local)\nLugar de Nacimiento: "
  ++ d.birthPlace
  ++ "\nSexo del Usuario: " ++ d.userSex
  ++ "\nLatitud: " ++ d.latitudeStr
  ++ "\nLongitud: " ++ d.longitudeStr
  ++ "\nZona Horaria Identificada: " ++ d.timezoneId
  ++ " (Offset GMT: " ++ d.rawOffsetHoursStr ++ " horas)"
  ++ "\n\nY los siguientes datos astrológicos precisos calculados:\nSigno Solar: "
  ++ d.sunSign
  ++ "\nSigno Lunar: " ++ d.moonSign
  ++ "\nAscendente: " ++ d.ascendant
  ++ "\nMedio Cielo: " ++ d.mc
  ++ "\nPosiciones de Planetas: " ++ d.planetsPositions
  ++ ".\nCúspides de Casas: " ++ d.housesCusps
  ++ ".\nAspectos Clave: " ++ d.keyAspects
  ++ "\n\nLa interpretación debe ser altamente profesional, profunda, narrativa y psicológicamente atractiva. Utiliza principios de Neuro-Linguistic Programming (PNL) para inspirar, captar la atención y motivar el crecimiento personal, fomentando una sensación agradable, mental y psicológicamente enriquecedora para el lector. "
  ++ toneLine
  ++ " La interpretación debe ser sensible al género del usuario.\n\nLa interpretación debe estructurarse con las siguientes 28 secciones exactas y en este orden. "
  ++ exclusionLine
  ++ "\n\n"
  ++ sectionsText
  ++ "\n\n"
  ++ practicalLine
  ++ "\n\nResponde enteramente en "

/-- The prompt head up to (and excluding) the tone directive. -/
def promptUpToTone (d : FinalData) : String :=
  "Genera una interpretación completa de la carta astral basada en los siguientes datos de nacimiento:\nFecha de Nacimiento: "
  ++ d.birthDate
  ++ "\nHora de Nacimiento: " ++ d.birthTime ++ " (Hora Local)\nLugar de Nacimiento: "
  ++ d.birthPlace
  ++ "\nSexo del Usuario: " ++ d.userSex
  ++ "\nLatitud: " ++ d.latitudeStr
  ++ "\nLongitud: " ++ d.longitudeStr
  ++ "\nZona Horaria Identificada: " ++ d.timezoneId
  ++ " (Offset GMT: " ++ d.rawOffsetHoursStr ++ " horas)"
  ++ "\n\nY los siguientes datos astrológicos precisos calculados:\nSigno Solar: "
  ++ d.sunSign
  ++ "\nSigno Lunar: " ++ d.moonSign
  ++ "\nAscendente: " ++ d.ascendant
  ++ "\nMedio Cielo: " ++ d.mc
  ++ "\nPosiciones de Planetas: " ++ d.planetsPositions
  ++ ".\nCúspides de Casas: " ++ d.housesCusps
  ++ ".\nAspectos Clave: " ++ d.keyAspects
  ++ "\n\nLa interpretación debe ser altamente profesional, profunda, narrativa y psicológicamente atractiva. Utiliza principios de Neuro-Linguistic Programming (PNL) para inspirar, captar la atención y motivar el crecimiento personal, fomentando una sensación agradable, mental y psicológicamente enriquecedora para el lector. "

/-- The static text between the tone directive and the exclusion list. -/
def betweenToneAndExclusion : String :=
  " La interpretación debe ser sensible al género del usuario.\n\nLa interpretación debe estructurarse con las siguientes 28 secciones exactas y en este orden. "

/-! ### Concrete data for the evaluation theorems -/

/-- A fixed ephemeris oracle (the verified properties quantify over all
oracles; this one only instantiates them). -/
def demoEph : Ephemeris :=
  { julday := fun _ _ _ _ => 0
    calcLon := fun _ _ => 0
    housesOf := fun _ _ _ => { house := fun _ => 0, ascendant := 0, mc := 0 } }

/-- Collaborators all succeeding, with the runtime environment's UTC
offset as a parameter. -/
def demoWorld (serverOff : ℤ) : World :=
  { geo := some (some (40, -3))
    tz := some (some ("Europe/Madrid", 0, 3600))
    eph := demoEph
    gemini := fun _ => "ok"
    serverOffsetSeconds := serverOff }

/-- A concrete interpolation record for instantiating the prompt
theorems. -/
def demoFD : FinalData :=
  { birthDate := "1990-03-21", birthTime := "12:30", birthPlace := "Madrid",
    userSex := "F", timezoneId := "Europe/Madrid", rawOffsetHoursStr := "1",
    latitudeStr := "40", longitudeStr := "-3", sunSign := "Aries",
    moonSign := "Tauro", ascendant := "Leo", mc := "Aries",
    planetsPositions := "p", housesCusps := "h", keyAspects := "a",
    language := "es" }

/-- A well-formed request body. -/
def demoBody : RequestBody :=
  { birthDate := some "1990-03-21", birthTime := some "12:30",
    birthPlace := some "Madrid", userSex := some "F", language := some "es" }

/-- A concrete, circularly ordered cusp array (cusps 1..12 at
15°, 45°, …, 345°). -/
def cuspEx : ℕ → ℚ :=
  fun h => [0, 15, 45, 75, 105, 135, 165, 195, 225, 255, 285, 315, 345].getD h 0

/-! ## Theorems -/

/-- Every in-range integer index hits the 12-entry sign table. -/
theorem signNames_get (n : ℤ) (h0 : 0 ≤ n) (h1 : n < 12) :
    ∃ s, jsIndexGet signNames n = some s := by
  interval_cases n <;> exact ⟨_, rfl⟩

/-- For a nonnegative longitude the JS remainder is the mathematical
remainder `L - 30·⌊L/30⌋`. -/
theorem degreeRaw_eq_floor (L : ℚ) (h0 : 0 ≤ L) :
    degreeRaw L = L - 30 * ((⌊L / 30⌋ : ℤ) : ℚ) := by
  have hq0 : 0 ≤ L / 30 := by positivity
  unfold degreeRaw jsMod jsTrunc
  rw [if_neg (not_lt.mpr hq0)]

/-- C1: for every longitude `L ∈ [0,360)` the derived sign is the
12-entry table at index `⌊L/30⌋` (the lookup is defined, i.e. the index is
in range), the degree within the sign is the mathematical remainder
`L mod 30`, which lies in `[0,30)`; and a longitude of exactly 30 maps to
sign index 1, `"Tauro"`. -/
theorem sign_degree_spec (L : ℚ) (h0 : 0 ≤ L) (h1 : L < 360) :
    (∃ s, signOf L = some s) ∧
    degreeRaw L = L - 30 * ((⌊L / 30⌋ : ℤ) : ℚ) ∧
    0 ≤ degreeRaw L ∧ degreeRaw L < 30 ∧
    signIndexOf 30 = 1 ∧ signOf 30 = some "Tauro" := by
  have h30 : (0:ℚ) < 30 := by norm_num
  have hq0 : 0 ≤ L / 30 := by positivity
  have hfl0 : 0 ≤ ⌊L / 30⌋ := Int.floor_nonneg.mpr hq0
  have hq12 : L / 30 < 12 := (div_lt_iff h30).mpr (by linarith)
  have hfl12 : ⌊L / 30⌋ < 12 := Int.floor_lt.mpr (by push_cast; exact hq12)
  have hmod := degreeRaw_eq_floor L h0
  have hfract : degreeRaw L = 30 * Int.fract (L / 30) := by
    rw [hmod, Int.fract]
    ring
  have hone : (⌊(30:ℚ) / 30⌋ : ℤ) = 1 := by
    rw [Int.floor_eq_iff] <;> norm_num
  refine ⟨signNames_get _ hfl0 hfl12, hmod, ?_, ?_, hone, ?_⟩
  · rw [hfract]
    have := Int.fract_nonneg (L / 30)
    positivity
  · rw [hfract]
    have := Int.fract_lt_one (L / 30)
    linarith
  · show jsIndexGet signNames ⌊(30:ℚ) / 30⌋ = some "Tauro"
    rw [hone]
    rfl

/-- Witness for `sign_degree_spec` at the concrete longitude 45. -/
theorem sign_degree_spec_witness :
    (∃ s, signOf 45 = some s) ∧
    degreeRaw 45 = 45 - 30 * ((⌊(45:ℚ) / 30⌋ : ℤ) : ℚ) ∧
    0 ≤ degreeRaw 45 ∧ degreeRaw 45 < 30 ∧
    signIndexOf 30 = 1 ∧ signOf 30 = some "Tauro" :=
  sign_degree_spec 45 (by norm_num) (by norm_num)

/-- C4 counterexample: no normalization is performed before sign/degree
derivation — at raw longitude exactly 360 the sign index is 12 (outside
0..11) and the table lookup yields no sign, and a negative longitude also
yields no sign, contradicting the claim that the derivation is
well-defined for raw inputs outside `[0,360)`. -/
theorem no_normalization_at_360 :
    signIndexOf 360 = 12 ∧ signOf 360 = none ∧ signOf (-1) = none := by
  have h12 : (⌊(360:ℚ) / 30⌋ : ℤ) = 12 := by
    rw [Int.floor_eq_iff] <;> norm_num
  have hneg : (⌊(-1:ℚ) / 30⌋ : ℤ) = -1 := by
    rw [Int.floor_eq_iff] <;> norm_num
  refine ⟨h12, ?_, ?_⟩
  · show jsIndexGet signNames ⌊(360:ℚ) / 30⌋ = none
    rw [h12]
    rfl
  · show jsIndexGet signNames ⌊(-1:ℚ) / 30⌋ = none
    rw [hneg]
    rfl

/-- C4 (amended): the code applies no normalization; the sign/degree
derivation computes `⌊L/30⌋` on the raw longitude, which lands in 0..11
(and hits the table) exactly when the raw input is already in `[0,360)`;
for raw inputs `≥ 360` or `< 0` the lookup produces no sign — the code
relies on the ephemeris collaborator returning longitudes in `[0,360)`. -/
theorem sign_derivation_partial_domain :
    (∀ L : ℚ, 0 ≤ L → L < 360 →
      0 ≤ signIndexOf L ∧ signIndexOf L < 12 ∧ ∃ s, signOf L = some s) ∧
    (∀ L : ℚ, 360 ≤ L → signOf L = none) ∧
    (∀ L : ℚ, L < 0 → signOf L = none) := by
  have h30 : (0:ℚ) < 30 := by norm_num
  refine ⟨?_, ?_, ?_⟩
  · intro L h0 h1
    have hq0 : 0 ≤ L / 30 := by positivity
    have hfl0 : 0 ≤ ⌊L / 30⌋ := Int.floor_nonneg.mpr hq0
    have hfl12 : ⌊L / 30⌋ < 12 :=
      Int.floor_lt.mpr (by push_cast; exact (div_lt_iff h30).mpr (by linarith))
    exact ⟨hfl0, hfl12, signNames_get _ hfl0 hfl12⟩
  · intro L hL
    have h12 : (12:ℤ) ≤ ⌊L / 30⌋ := by
      apply Int.le_floor.mpr
      push_cast
      rw [le_div_iff h30]
      linarith
    show jsIndexGet signNames ⌊L / 30⌋ = none
    unfold jsIndexGet
    rw [if_pos (by omega)]
    apply List.get?_eq_none.mpr
    show signNames.length ≤ _
    have : signNames.length = 12 := rfl
    omega
  · intro L hL
    have : ¬ 0 ≤ ⌊L / 30⌋ := by
      rw [Int.floor_nonneg]
      push_neg
      exact div_neg_of_neg_of_pos hL h30
    show jsIndexGet signNames ⌊L / 30⌋ = none
    unfold jsIndexGet
    rw [if_neg this]

/-- Witness for `sign_derivation_partial_domain` at longitudes 45, 361
and −5. -/
theorem sign_derivation_partial_domain_witness :
    (0 ≤ signIndexOf 45 ∧ signIndexOf 45 < 12 ∧ ∃ s, signOf 45 = some s) ∧
    signOf 361 = none ∧ signOf (-5) = none :=
  ⟨sign_derivation_partial_domain.1 45 (by norm_num) (by norm_num),
   sign_derivation_partial_domain.2.1 361 (by norm_num),
   sign_derivation_partial_domain.2.2 (-5) (by norm_num)⟩

/-- C5 counterexample: the degree stored in a body record is *not* the
full-precision `lon mod 30` — at longitude 10.123 the record stores
10.12. -/
theorem stored_degree_rounded_cex :
    (mkPlacement (10123/1000)).degree ≠ degreeRaw (10123/1000) := by
  have h1 : degreeRaw ((10123:ℚ)/1000) = 10123/1000 := by
    rw [degreeRaw_eq_floor _ (by norm_num)]
    have : (⌊(10123:ℚ)/1000 / 30⌋ : ℤ) = 0 := by
      rw [Int.floor_eq_iff] <;> norm_num
    rw [this]
    norm_num
  have h2 : (mkPlacement ((10123:ℚ)/1000)).degree = 1012/100 := by
    show round2 (degreeRaw ((10123:ℚ)/1000)) = 1012/100
    rw [h1]
    unfold round2
    have : round ((10123:ℚ)/1000 * 100) = 1012 := by
      rw [round_eq, Int.floor_eq_iff] <;> norm_num
    rw [this]
    norm_num
  rw [h2, h1]
  norm_num

/-- C5 (amended): the degree stored in each body and cusp record is the
value already rounded to two decimals (`toFixed(2)` is applied at storage
time); full precision survives only in the separate `longitude` field.
The stored degree coincides with the full-precision `lon mod 30` exactly
when that value is a multiple of 1/100. -/
theorem stored_degree_rounding (lon : ℚ) :
    (mkPlacement lon).degree = round2 (degreeRaw lon) ∧
    (mkPlacement lon).longitude = lon ∧
    ((mkPlacement lon).degree = degreeRaw lon ↔ ∃ n : ℤ, degreeRaw lon * 100 = (n : ℚ)) := by
  refine ⟨rfl, rfl, ?_⟩
  show round2 (degreeRaw lon) = degreeRaw lon ↔ _
  set q := degreeRaw lon with hq
  constructor
  · intro h
    refine ⟨round (q * 100), ?_⟩
    have h2 : ((round (q * 100) : ℤ) : ℚ) / 100 = q := h
    linarith
  · rintro ⟨n, hn⟩
    have hqn : q = (n : ℚ) / 100 := by linarith
    have hr : round (q * 100) = n := by
      rw [hn, round_intCast]
    show ((round (q * 100) : ℤ) : ℚ) / 100 = q
    rw [hr, hqn]

/-! ### House assignment: circular interval search -/

/-- Walking from a circularly ordered cusp array: strict growth over any
positive number of steps within one revolution. -/
theorem cusp_chain (c : ℕ → ℚ) (k : ℕ)
    (hm : ∀ i, i < 11 → c (rot k i) < c (rot k (i + 1))) :
    ∀ j, j ≤ 11 → ∀ i, i < j → c (rot k i) < c (rot k j) := by
  intro j
  induction j with
  | zero => exact fun _ i hi => (Nat.not_lt_zero i hi).elim
  | succ n ih =>
    intro hn i hi
    rcases Nat.lt_succ_iff_lt_or_eq.mp hi with h | h
    · exact lt_trans (ih (by omega) i h) (hm n (by omega))
    · subst h
      exact hm i (by omega)

theorem rot_next (k j : ℕ) : nextHouse (rot k j) = rot k (j + 1) := by
  unfold nextHouse rot
  split <;> omega

theorem rot_ge_one (k j : ℕ) : 1 ≤ rot k j := by
  unfold rot
  omega

theorem rot_le_twelve (k j : ℕ) : rot k j ≤ 12 := by
  unfold rot
  omega

theorem rot_twelve (k : ℕ) : rot k 12 = rot k 0 := by
  unfold rot
  omega

theorem rot_surj (k h : ℕ) (h1 : 1 ≤ h) (h2 : h ≤ 12) :
    ∃ j, j ≤ 11 ∧ rot k j = h := by
  refine ⟨(h + 11 - (k - 1) % 12) % 12, by omega, ?_⟩
  unfold rot
  omega

theorem inArc_intro_lin (a b x : ℚ) (hab : a < b) (h1 : a ≤ x) (h2 : x < b) :
    inArcB a b x = true := by
  unfold inArcB
  rw [if_pos hab]
  simp [h1, h2]

theorem inArc_intro_wrapL (a b x : ℚ) (hab : ¬ a < b) (h : a ≤ x) :
    inArcB a b x = true := by
  unfold inArcB
  rw [if_neg hab]
  simp [h]

theorem inArc_intro_wrapR (a b x : ℚ) (hab : ¬ a < b) (h : x < b) :
    inArcB a b x = true := by
  unfold inArcB
  rw [if_neg hab]
  simp [h]

theorem inArc_elim_lin (a b x : ℚ) (hab : a < b) (h : inArcB a b x = true) :
    a ≤ x ∧ x < b := by
  unfold inArcB at h
  rw [if_pos hab] at h
  simpa using h

theorem inArc_elim_wrap (a b x : ℚ) (hab : ¬ a < b) (h : inArcB a b x = true) :
    a ≤ x ∨ x < b := by
  unfold inArcB at h
  rw [if_neg hab] at h
  simpa using h

/-- Search for the linear interval containing `x`. -/
theorem house_search (c : ℕ → ℚ) (k : ℕ) (x : ℚ) :
    ∀ n, c (rot k 0) ≤ x → x < c (rot k n) →
      ∃ j, j < n ∧ c (rot k j) ≤ x ∧ x < c (rot k (j + 1)) := by
  intro n
  induction n with
  | zero => exact fun h1 h2 => absurd (lt_of_le_of_lt h1 h2) (lt_irrefl _)
  | succ n ih =>
    intro h1 h2
    by_cases hx : x < c (rot k n)
    · obtain ⟨j, hj, hj1, hj2⟩ := ih h1 hx
      exact ⟨j, by omega, hj1, hj2⟩
    · push_neg at hx
      exact ⟨n, by omega, hx, h2⟩

/-- Existence: some house (in rotated position `j ≤ 11`) contains `x`. -/
theorem house_exists (c : ℕ → ℚ) (k : ℕ) (x : ℚ)
    (hm : ∀ i, i < 11 → c (rot k i) < c (rot k (i + 1))) :
    ∃ j, j ≤ 11 ∧ inHouse c (rot k j) x := by
  have chain := cusp_chain c k hm
  have h011 : c (rot k 0) < c (rot k 11) := chain 11 (le_refl _) 0 (by omega)
  have hwrapcond : ¬ c (rot k 11) < c (rot k 12) := by
    rw [rot_twelve]
    exact not_lt.mpr h011.le
  by_cases h0 : x < c (rot k 0)
  · refine ⟨11, le_refl _, ?_⟩
    unfold inHouse
    rw [rot_next]
    exact inArc_intro_wrapR _ _ _ hwrapcond (by rw [rot_twelve]; exact h0)
  · push_neg at h0
    by_cases h11 : c (rot k 11) ≤ x
    · refine ⟨11, le_refl _, ?_⟩
      unfold inHouse
      rw [rot_next]
      exact inArc_intro_wrapL _ _ _ hwrapcond h11
    · push_neg at h11
      obtain ⟨j, hj, hj1, hj2⟩ := house_search c k x 11 h0 h11
      refine ⟨j, by omega, ?_⟩
      unfold inHouse
      rw [rot_next]
      exact inArc_intro_lin _ _ _ (hm j hj) hj1 hj2

/-- Two distinct rotated positions cannot both contain `x`. -/
theorem house_unique_aux (c : ℕ → ℚ) (k : ℕ) (x : ℚ)
    (hm : ∀ i, i < 11 → c (rot k i) < c (rot k (i + 1)))
    (j1 j2 : ℕ) (hj2 : j2 ≤ 11) (hlt : j1 < j2)
    (a1 : inHouse c (rot k j1) x) (a2 : inHouse c (rot k j2) x) : False := by
  have chain := cusp_chain c k hm
  have h011 : c (rot k 0) < c (rot k 11) := chain 11 (le_refl _) 0 (by omega)
  have hwrapcond : ¬ c (rot k 11) < c (rot k 12) := by
    rw [rot_twelve]
    exact not_lt.mpr h011.le
  have hlin : ∀ j, j ≤ 10 → inHouse c (rot k j) x →
      c (rot k j) ≤ x ∧ x < c (rot k (j + 1)) := by
    intro j hj hin
    unfold inHouse at hin
    rw [rot_next] at hin
    exact inArc_elim_lin _ _ _ (hm j (by omega)) hin
  have l1 := hlin j1 (by omega) a1
  by_cases hj2' : j2 ≤ 10
  · have l2 := hlin j2 hj2' a2
    have hle : c (rot k (j1 + 1)) ≤ c (rot k j2) := by
      rcases Nat.lt_or_ge (j1 + 1) j2 with hh | hh
      · exact (chain j2 (by omega) (j1 + 1) hh).le
      · have he : j1 + 1 = j2 := by omega
        rw [he]
    linarith [l1.2, l2.1]
  · have hj2'' : j2 = 11 := by omega
    subst hj2''
    unfold inHouse at a2
    rw [rot_next] at a2
    have hw := inArc_elim_wrap _ _ _ hwrapcond a2
    rw [rot_twelve] at hw
    rcases hw with h11 | h0
    · have hle : c (rot k (j1 + 1)) ≤ c (rot k 11) := by
        rcases Nat.lt_or_ge (j1 + 1) 11 with hh | hh
        · exact (chain 11 (le_refl _) (j1 + 1) hh).le
        · have he : j1 + 1 = 11 := by omega
          rw [he]
      linarith [l1.2]
    · have hle : c (rot k 0) ≤ c (rot k j1) := by
        rcases Nat.eq_zero_or_pos j1 with hh | hh
        · rw [hh]
        · exact (chain j1 (by omega) 0 (by omega)).le
      linarith [l1.1]

theorem house_unique (c : ℕ → ℚ) (k : ℕ) (x : ℚ)
    (hm : ∀ i, i < 11 → c (rot k i) < c (rot k (i + 1)))
    (j1 j2 : ℕ) (hj1 : j1 ≤ 11) (hj2 : j2 ≤ 11)
    (a1 : inHouse c (rot k j1) x) (a2 : inHouse c (rot k j2) x) : j1 = j2 := by
  rcases Nat.lt_trichotomy j1 j2 with h | h | h
  · exact (house_unique_aux c k x hm j1 j2 hj2 h a1 a2).elim
  · exact h
  · exact (house_unique_aux c k x hm j2 j1 hj1 h a2 a1).elim

theorem mem_houseList (h : ℕ) (hh1 : 1 ≤ h) (hh2 : h ≤ 12) :
    h ∈ (List.range 12).map (· + 1) := by
  simp only [List.mem_map, List.mem_range]
  exact ⟨h - 1, by omega, by omega⟩

/-- `findHouse` returns exactly the unique house containing `x`. -/
theorem findHouse_eq (c : ℕ → ℚ) (k : ℕ) (x : ℚ)
    (hm : ∀ i, i < 11 → c (rot k i) < c (rot k (i + 1)))
    (h : ℕ) (hh1 : 1 ≤ h) (hh2 : h ≤ 12) (hin : inHouse c h x) :
    findHouse c x = some h := by
  unfold findHouse
  cases hf : ((List.range 12).map (· + 1)).find?
      (fun h => inArcB (c h) (c (nextHouse h)) x) with
  | none =>
    exfalso
    have := List.find?_eq_none.mp hf h (mem_houseList h hh1 hh2)
    exact this hin
  | some h2 =>
    have hp := List.find?_some hf
    have hmem := List.mem_of_find?_eq_some hf
    have hb : 1 ≤ h2 ∧ h2 ≤ 12 := by
      simp only [List.mem_map, List.mem_range] at hmem
      obtain ⟨a, ha, rfl⟩ := hmem
      omega
    obtain ⟨j1, hj1, e1⟩ := rot_surj k h hh1 hh2
    obtain ⟨j2, hj2, e2⟩ := rot_surj k h2 hb.1 hb.2
    have hj : j1 = j2 := by
      apply house_unique c k x hm j1 j2 hj1 hj2
      · rw [e1]; exact hin
      · rw [e2]; exact hp
    rw [← e2, ← hj, e1]

theorem floor_house_pos (c : ℕ → ℚ) (lat x : ℚ) (h : ℕ)
    (hf : findHouse c x = some h) : ⌊swe_house_pos c lat x⌋ = (h : ℤ) := by
  unfold swe_house_pos
  rw [hf]
  show (⌊((h : ℕ) : ℚ)⌋ : ℤ) = h
  exact_mod_cast Int.floor_natCast h

/-- C2: with respect to a circularly ordered cusp array (strictly
increasing along the rotation starting at house `k`), every longitude lies
in exactly one house `h ∈ [1,12]` (the half-open circular interval
`[cusp h, cusp (h+1))`), the floored `swe_house_pos` value is exactly that
house, a body between the house-12 cusp and the house-1 cusp across 0°
gets house 12 (never 13), and in the computed chart the cusp longitudes
reported in the cusp list are exactly the cusp array used for the house
assignment of every planet. -/
theorem house_assignment_spec (c : ℕ → ℚ) (x lat : ℚ) (k : ℕ)
    (hm : ∀ i, i < 11 → c (rot k i) < c (rot k (i + 1))) :
    (∃! h : ℕ, 1 ≤ h ∧ h ≤ 12 ∧ inHouse c h x) ∧
    (∀ h : ℕ, 1 ≤ h → h ≤ 12 → inHouse c h x →
      ⌊swe_house_pos c lat x⌋ = (h : ℤ)) ∧
    (¬ c 12 < c 1 → (c 12 ≤ x ∨ x < c 1) → ⌊swe_house_pos c lat x⌋ = 12) ∧
    (∀ (e : Ephemeris) (dt : LocalDateTime) (off : ℤ) (la lo : ℚ),
      (computeChart e dt off la lo).houses.map Placement.longitude
        = (List.range 12).map (fun i => (computeChart e dt off la lo).cuspArray (i + 1)) ∧
      (computeChart e dt off la lo).planetHouses
        = (computeChart e dt off la lo).planets.map
            (fun np => (np.1, ⌊swe_house_pos ((computeChart e dt off la lo).cuspArray)
                la np.2.longitude⌋))) := by
  obtain ⟨j, hj, hin⟩ := house_exists c k x hm
  refine ⟨⟨rot k j, ⟨rot_ge_one k j, rot_le_twelve k j, hin⟩, ?_⟩, ?_, ?_, ?_⟩
  · rintro y ⟨hy1, hy2, hyin⟩
    obtain ⟨jy, hjy, ey⟩ := rot_surj k y hy1 hy2
    have : jy = j := by
      apply house_unique c k x hm jy j hjy hj
      · rw [ey]; exact hyin
      · exact hin
    rw [← ey, this]
  · intro h hh1 hh2 hhin
    exact floor_house_pos c lat x h (findHouse_eq c k x hm h hh1 hh2 hhin)
  · intro hno hx
    have h12 : inHouse c 12 x := by
      unfold inHouse nextHouse
      rw [if_pos rfl]
      rcases hx with h | h
      · exact inArc_intro_wrapL _ _ _ hno h
      · exact inArc_intro_wrapR _ _ _ hno h
    exact floor_house_pos c lat x 12 (findHouse_eq c k x hm 12 (by omega) (by omega) h12)
  · intro e dt off la lo
    constructor
    · simp [computeChart, mkPlacement, List.map_map]
    · rfl

/-- Witness for `house_assignment_spec` at the concrete cusp array
`cuspEx` (cusps at 15°, 45°, …, 345°) and longitude 350° (which lies in
the wrapping house 12). -/
theorem house_assignment_spec_witness :
    (∃! h : ℕ, 1 ≤ h ∧ h ≤ 12 ∧ inHouse cuspEx h 350) ∧
    (∀ h : ℕ, 1 ≤ h → h ≤ 12 → inHouse cuspEx h 350 →
      ⌊swe_house_pos cuspEx 0 350⌋ = (h : ℤ)) ∧
    (¬ cuspEx 12 < cuspEx 1 → (cuspEx 12 ≤ 350 ∨ (350:ℚ) < cuspEx 1) →
      ⌊swe_house_pos cuspEx 0 350⌋ = 12) ∧
    (∀ (e : Ephemeris) (dt : LocalDateTime) (off : ℤ) (la lo : ℚ),
      (computeChart e dt off la lo).houses.map Placement.longitude
        = (List.range 12).map (fun i => (computeChart e dt off la lo).cuspArray (i + 1)) ∧
      (computeChart e dt off la lo).planetHouses
        = (computeChart e dt off la lo).planets.map
            (fun np => (np.1, ⌊swe_house_pos ((computeChart e dt off la lo).cuspArray)
                la np.2.longitude⌋))) :=
  house_assignment_spec cuspEx 350 0 1 (by decide)

/-! ### Handler reductions -/

/-- A POST request with configuration present and all five fields
non-empty proceeds to the pipeline. -/
theorem handle_post (bd bt bp sx lg : String) (w : World)
    (hbd : bd ≠ "") (hbt : bt ≠ "") (hbp : bp ≠ "") (hsx : sx ≠ "") (hlg : lg ≠ "") :
    handle "POST" true true ⟨some bd, some bt, some bp, some sx, some lg⟩ w
      = handleValidated bd bt bp sx lg w := by
  unfold handle
  rw [if_neg (by decide : ¬("POST" : String) = "OPTIONS")]
  rw [if_neg (by simp : ¬("POST" : String) ≠ "POST")]
  rw [if_neg (by simp : ¬¬((true : Bool) = true))]
  rw [if_neg (by simp : ¬¬((true : Bool) = true))]
  show (if bd = "" ∨ bt = "" ∨ bp = "" ∨ sx = "" ∨ lg = ""
    then errRes 400 [] else handleValidated bd bt bp sx lg w)
      = handleValidated bd bt bp sx lg w
  rw [if_neg (by simp [hbd, hbt, hbp, hsx, hlg])]

/-- C7: a POST request (with configuration present) that is missing any
one of the five body fields gets status 400 and no collaborator is
called. -/
theorem missing_field_short_circuit (body : RequestBody) (w : World)
    (h : body.birthDate = none ∨ body.birthTime = none ∨ body.birthPlace = none ∨
         body.userSex = none ∨ body.language = none) :
    (handle "POST" true true body w).status = 400 ∧
    (handle "POST" true true body w).calls = [] := by
  obtain ⟨f1, f2, f3, f4, f5⟩ := body
  unfold handle
  rw [if_neg (by decide : ¬("POST" : String) = "OPTIONS")]
  rw [if_neg (by simp : ¬("POST" : String) ≠ "POST")]
  rw [if_neg (by simp : ¬¬((true : Bool) = true))]
  rw [if_neg (by simp : ¬¬((true : Bool) = true))]
  rcases f1 with _ | s1 <;> rcases f2 with _ | s2 <;> rcases f3 with _ | s3 <;>
    rcases f4 with _ | s4 <;> rcases f5 with _ | s5 <;> simp_all [errRes]

/-- Witness for `missing_field_short_circuit`: request with no
`birthDate`. -/
theorem missing_field_short_circuit_witness :
    (handle "POST" true true
      ⟨none, some "12:30", some "Madrid", some "F", some "es"⟩ (demoWorld 0)).status = 400 ∧
    (handle "POST" true true
      ⟨none, some "12:30", some "Madrid", some "F", some "es"⟩ (demoWorld 0)).calls = [] :=
  missing_field_short_circuit _ _ (Or.inl rfl)

/-- C8: once geocoding has succeeded, a composed birth date/time that does
not denote a real calendar instant makes the pipeline answer 400 (the
`InvalidDateTime` path) with only the geocoder called; `Feb 30`,
out-of-range months, hours and minutes are all rejected by the parse. -/
theorem invalid_datetime_400 (bd bt bp sx lg : String) (w : World)
    (hbd : bd ≠ "") (hbt : bt ≠ "") (hbp : bp ≠ "") (hsx : sx ≠ "") (hlg : lg ≠ "")
    (lat lon : ℚ) (hg : w.geo = some (some (lat, lon)))
    (hp : parseLocalDT bd bt = none) :
    (handle "POST" true true ⟨some bd, some bt, some bp, some sx, some lg⟩ w).status = 400 ∧
    (handle "POST" true true ⟨some bd, some bt, some bp, some sx, some lg⟩ w).calls
      = [Call.geocode] ∧
    parseLocalDT "1995-02-30" "10:00" = none ∧
    parseLocalDT "2000-01-01" "25:00" = none ∧
    parseLocalDT "2000-13-01" "10:00" = none ∧
    parseLocalDT "2000-01-01" "10:60" = none := by
  have hh := handle_post bd bt bp sx lg w hbd hbt hbp hsx hlg
  refine ⟨?_, ?_, by decide, by decide, by decide, by decide⟩
  · rw [hh]
    simp [handleValidated, hg, hp, errRes]
  · rw [hh]
    simp [handleValidated, hg, hp, errRes]

/-- Witness for `invalid_datetime_400`: February 30th. -/
theorem invalid_datetime_400_witness :
    (handle "POST" true true
      ⟨some "1995-02-30", some "10:00", some "Madrid", some "F", some "es"⟩
      (demoWorld 0)).status = 400 ∧
    (handle "POST" true true
      ⟨some "1995-02-30", some "10:00", some "Madrid", some "F", some "es"⟩
      (demoWorld 0)).calls = [Call.geocode] ∧
    parseLocalDT "1995-02-30" "10:00" = none ∧
    parseLocalDT "2000-01-01" "25:00" = none ∧
    parseLocalDT "2000-13-01" "10:00" = none ∧
    parseLocalDT "2000-01-01" "10:60" = none :=
  invalid_datetime_400 "1995-02-30" "10:00" "Madrid" "F" "es" (demoWorld 0)
    (by decide) (by decide) (by decide) (by decide) (by decide)
    40 (-3) rfl (by decide)

/-- C3 (code bug): the hour argument handed to `swe_julday` is
`getHours() + offsetSeconds/3600` — the birth minutes are dropped.  For
birth time 12:30 with a +3600 s offset the pipeline records hour argument
13, while the intended astronomical hour (hours + minutes/60 +
offset/3600) is 13.5. -/
theorem julday_hour_drops_minutes :
    parseLocalDT "1990-03-21" "12:30" = some ⟨1990, 3, 21, 12, 30⟩ ∧
    (handle "POST" true true demoBody (demoWorld 0)).hourArg
      = some (juldayHour ⟨1990, 3, 21, 12, 30⟩ (totalOffsetSeconds 0 3600)) ∧
    totalOffsetSeconds 0 3600 = 3600 ∧
    juldayHour ⟨1990, 3, 21, 12, 30⟩ 3600 = 13 ∧
    (12 : ℚ) + 30 / 60 + 3600 / 3600 = 27 / 2 ∧
    (13 : ℚ) ≠ 27 / 2 := by
  refine ⟨by decide, rfl, by decide, ?_, by norm_num, by norm_num⟩
  unfold juldayHour
  norm_num

/-- C6 counterexample: the `timestamp` sent to the timezone lookup is
*not* determined by the birth data alone — two runtime environments with
different local timezones send different timestamps for the same birth
input. -/
theorem timestamp_depends_on_server_tz :
    (handle "POST" true true demoBody (demoWorld 0)).tzTimestamp ≠
      (handle "POST" true true demoBody (demoWorld 3600)).tzTimestamp := by
  have h1 : (handle "POST" true true demoBody (demoWorld 0)).tzTimestamp
      = some (unixSeconds ⟨1990, 3, 21, 12, 30⟩ 0) := rfl
  have h2 : (handle "POST" true true demoBody (demoWorld 3600)).tzTimestamp
      = some (unixSeconds ⟨1990, 3, 21, 12, 30⟩ 3600) := rfl
  rw [h1, h2]
  decide

/-- C6 (amended): the total offset adopted by the pipeline is exactly
`dstOffset + rawOffset` from the timezone lookup, and the timestamp sent
to that lookup is the birth civil datetime interpreted in the *runtime
environment's* timezone — epoch seconds of the birth fields minus the
server's UTC offset: independent of the request time, but dependent on
the server environment (and independent of the birth place). -/
theorem offset_and_timestamp_amended (bd bt bp sx lg : String) (w : World)
    (hbd : bd ≠ "") (hbt : bt ≠ "") (hbp : bp ≠ "") (hsx : sx ≠ "") (hlg : lg ≠ "")
    (lat lon : ℚ) (hg : w.geo = some (some (lat, lon)))
    (zid : String) (dstOffset rawOffset : ℤ)
    (ht : w.tz = some (some (zid, dstOffset, rawOffset)))
    (dt : LocalDateTime) (hp : parseLocalDT bd bt = some dt) :
    (handle "POST" true true ⟨some bd, some bt, some bp, some sx, some lg⟩ w).offsetUsed
      = some (dstOffset + rawOffset) ∧
    (handle "POST" true true ⟨some bd, some bt, some bp, some sx, some lg⟩ w).tzTimestamp
      = some (daysFromCivil dt.year dt.month dt.day * 86400 + dt.hour * 3600
          + dt.minute * 60 - w.serverOffsetSeconds) := by
  rw [handle_post bd bt bp sx lg w hbd hbt hbp hsx hlg]
  simp only [handleValidated, hg, hp, ht]
  exact ⟨rfl, rfl⟩

/-- Witness for `offset_and_timestamp_amended` at the demo request. -/
theorem offset_and_timestamp_amended_witness :
    (handle "POST" true true
      ⟨some "1990-03-21", some "12:30", some "Madrid", some "F", some "es"⟩
      (demoWorld 0)).offsetUsed = some (0 + 3600) ∧
    (handle "POST" true true
      ⟨some "1990-03-21", some "12:30", some "Madrid", some "F", some "es"⟩
      (demoWorld 0)).tzTimestamp
      = some (daysFromCivil 1990 3 21 * 86400 + 12 * 3600 + 30 * 60 - 0) :=
  offset_and_timestamp_amended "1990-03-21" "12:30" "Madrid" "F" "es" (demoWorld 0)
    (by decide) (by decide) (by decide) (by decide) (by decide)
    40 (-3) rfl "Europe/Madrid" 0 3600 rfl ⟨1990, 3, 21, 12, 30⟩ (by decide)

/-! ### Prompt structure -/

set_option maxRecDepth 4000 in
/-- The numbered lines built from the 28 titles are exactly the verbatim
lines of the template block. -/
theorem sectionLines_eq : numberedLines 1 sectionTitles = sectionLines := by decide

/-- The numbered enumeration built from the 28 titles is exactly the
verbatim section block of the template. -/
theorem sectionsBlock_eq : sectionsBlock = sectionsText :=
  congrArg (String.intercalate "\n") sectionLines_eq

/-- The prompt splits as everything-before-the-language-word, the
language word selected by `language === 'es'`, and the closing format
directive. -/
theorem textPrompt_lang_split (d : FinalData) :
    textPrompt d = promptUpToLanguage d
      ++ (if d.language = "es" then "Spanish" else "English")
      ++ ". El formato final debe ser Markdown." := by
  simp only [textPrompt, promptUpToLanguage, String.append_assoc]

/-- C9: the prompt handed to the narrative generator is a single text
block that contains, in order: the direct-address tone directive, the
exclusion list of forbidden topics, the contiguous numbered enumeration of
the 28 section titles (exactly the fixed titles, numbered 1..28 in the
fixed order), the practical-technique instruction for sections 27–28, and
a language directive choosing between the two supported output
languages. -/
theorem prompt_structure_spec (d : FinalData) :
    ∃ preA preB : String,
      textPrompt d = preA ++ toneLine ++ preB ++ exclusionLine ++ "\n\n" ++ sectionsBlock
        ++ "\n\n" ++ practicalLine ++ "\n\nResponde enteramente en "
        ++ (if d.language = "es" then "Spanish" else "English")
        ++ ". El formato final debe ser Markdown." ∧
      sectionTitles.length = 28 := by
  refine ⟨promptUpToTone d, betweenToneAndExclusion, ?_, rfl⟩
  rw [sectionsBlock_eq]
  simp only [textPrompt, promptUpToTone, betweenToneAndExclusion, String.append_assoc]

/-- C10: the `language` field is never validated against the `es`/`en`
enum — a request whose five fields are non-empty passes validation with
*any* language value, and every value other than the exact string `"es"`
makes the pipeline run to success (status 200, all four collaborators
called) with a prompt instructing the generator to respond in English. -/
theorem language_not_validated (bd bt bp sx lg : String) (w : World)
    (hbd : bd ≠ "") (hbt : bt ≠ "") (hbp : bp ≠ "") (hsx : sx ≠ "") (hlg : lg ≠ "")
    (hnes : lg ≠ "es")
    (lat lon : ℚ) (hg : w.geo = some (some (lat, lon)))
    (zid : String) (dstOffset rawOffset : ℤ)
    (ht : w.tz = some (some (zid, dstOffset, rawOffset)))
    (dt : LocalDateTime) (hp : parseLocalDT bd bt = some dt) :
    (handle "POST" true true ⟨some bd, some bt, some bp, some sx, some lg⟩ w).status = 200 ∧
    (handle "POST" true true ⟨some bd, some bt, some bp, some sx, some lg⟩ w).calls
      = [Call.geocode, Call.timezone, Call.ephemeris, Call.narrative] ∧
    (∃ a : String,
      (handle "POST" true true ⟨some bd, some bt, some bp, some sx, some lg⟩ w).promptOut
        = some (a ++ "English" ++ ". El formato final debe ser Markdown.")) := by
  rw [handle_post bd bt bp sx lg w hbd hbt hbp hsx hlg]
  simp only [handleValidated, hg, hp, ht]
  refine ⟨trivial, trivial, ?_⟩
  simp only [textPrompt_lang_split, mkFinalData, if_neg hnes]
  exact ⟨_, rfl⟩

/-- Witness for `language_not_validated`: `language = "fr"`. -/
theorem language_not_validated_witness :
    (handle "POST" true true
      ⟨some "1990-03-21", some "12:30", some "Madrid", some "F", some "fr"⟩
      (demoWorld 0)).status = 200 ∧
    (handle "POST" true true
      ⟨some "1990-03-21", some "12:30", some "Madrid", some "F", some "fr"⟩
      (demoWorld 0)).calls
      = [Call.geocode, Call.timezone, Call.ephemeris, Call.narrative] ∧
    (∃ a : String,
      (handle "POST" true true
        ⟨some "1990-03-21", some "12:30", some "Madrid", some "F", some "fr"⟩
        (demoWorld 0)).promptOut
        = some (a ++ "English" ++ ". El formato final debe ser Markdown.")) :=
  language_not_validated "1990-03-21" "12:30" "Madrid" "F" "fr" (demoWorld 0)
    (by decide) (by decide) (by decide) (by decide) (by decide) (by decide)
    40 (-3) rfl "Europe/Madrid" 0 3600 rfl ⟨1990, 3, 21, 12, 30⟩ (by decide)

/-- Witness for `stored_degree_rounding` at longitude 5. -/
theorem stored_degree_rounding_witness :
    (mkPlacement 5).degree = round2 (degreeRaw 5) ∧
    (mkPlacement 5).longitude = 5 ∧
    ((mkPlacement 5).degree = degreeRaw 5 ↔ ∃ n : ℤ, degreeRaw 5 * 100 = (n : ℚ)) :=
  stored_degree_rounding 5

/-- Witness for `prompt_structure_spec` at the concrete record `demoFD`. -/
theorem prompt_structure_spec_witness :
    ∃ preA preB : String,
      textPrompt demoFD = preA ++ toneLine ++ preB ++ exclusionLine ++ "\n\n" ++ sectionsBlock
        ++ "\n\n" ++ practicalLine ++ "\n\nResponde enteramente en "
        ++ (if demoFD.language = "es" then "Spanish" else "English")
        ++ ". El formato final debe ser Markdown." ∧
      sectionTitles.length = 28 :=
  prompt_structure_spec demoFD
